import Mathlib

/-!
Verification of `src/rqt_rover_gui/src/JoystickGripperInterface.cpp`
(Swarmathon-ROS).

The C++ class `JoystickGripperInterface` is embedded shallowly as a Lean
record together with pure state-transition functions, one per member
function of the class.  Conventions of the embedding:

* The `float` members are modelled as exact rationals (`ℚ`); the decimal
  literals of the source (`0.1`, `0.05`, `0.001`) become the corresponding
  rationals.
* A `QTimer*` member is modelled as `Option QTimer`: the initializing
  constructor allocates the timers (`some`), while the default constructor
  leaves the pointer members uninitialized (`none`, meaning "no valid
  timer object").  Dereferencing a `none` timer corresponds to undefined
  behaviour in the C++ source and is reported as the error
  `GripperError.nullTimerDeref`.
* A `ros::Publisher` is modelled by the topic it is bound to plus an
  activity flag; `publish` is modelled by appending the `(topic, value)`
  pair to a ghost log `publishedMessages` carried in the state.
* A member function that can throw (`moveWrist`, `moveFingers`) or hit
  undefined behaviour returns `Option GripperError × State`: the error, if
  any, together with the state of the object afterwards (mutations that
  the source performs before the failure point are kept, exactly as in
  the C++ control flow).
-/

/-- Model of a `QTimer`: whether it is running and its current interval
in milliseconds. -/
structure QTimer where
  active : Bool
  interval : ℕ
  deriving DecidableEq, Repr

/-- Method `QTimer::stop()`. -/
def QTimer.stop (t : QTimer) : QTimer :=
  { t with active := false }

/-- Method `QTimer::start(msec)`: sets the interval and starts the timer
(restarting it if it was already running). -/
def QTimer.start (t : QTimer) (msec : ℕ) : QTimer :=
  { t with active := true, interval := msec }

/-- Model of a `ros::Publisher`: the topic it is advertising on and
whether the handle is live (`advertise` makes it live, `shutdown` would
clear it). -/
structure Publisher where
  topic : String
  active : Bool
  deriving DecidableEq, Repr

/-- The state of a `JoystickGripperInterface` object.  Field names follow
the C++ data members; `publishedMessages` is a ghost log of every
`publish` call, recording the topic and the published value. -/
structure JoystickGripperInterface where
  ready : Bool
  wristAngle : ℚ
  fingerAngle : ℚ
  wristAngleChangeRate : ℚ
  fingerAngleChangeRate : ℚ
  wristAngleMax : ℚ
  wristAngleMin : ℚ
  fingerAngleMax : ℚ
  fingerAngleMin : ℚ
  wristJoystickVector : ℚ
  fingerJoystickVector : ℚ
  commandReapplyRate : ℕ
  stickCenterTolerance : ℚ
  joystickGripperWristControlTimer : Option QTimer
  joystickGripperFingerControlTimer : Option QTimer
  gripperWristAnglePublisher : Publisher
  gripperFingerAnglePublisher : Publisher
  roverName : String
  publishedMessages : List (String × ℚ)
  deriving DecidableEq, Repr

/-- The function `fabs` from `<cmath>`, on the rational model of `float`. -/
def fabs (x : ℚ) : ℚ :=
  if x < 0 then -x else x

/-- The errors an operation of the class can produce:
`notReady` models a thrown `JoystickGripperInterfaceNotReadyException`;
`nullTimerDeref` models dereferencing a timer pointer that was never
initialized (undefined behaviour in the C++ source). -/
inductive GripperError where
  | notReady
  | nullTimerDeref
  deriving DecidableEq, Repr

namespace JoystickGripperInterface

/-- The initializing constructor
`JoystickGripperInterface(ros::NodeHandle, string roverName)`: allocates
the two timers, zeroes the angles and joystick vectors, sets the limits,
rates, reapply period and dead-zone, advertises the two publishers and
finally sets `ready = true`. -/
def construct (roverName : String) : JoystickGripperInterface :=
  { ready := true
    wristAngle := 0
    fingerAngle := 0
    wristAngleChangeRate := 1/10
    fingerAngleChangeRate := 1/10
    wristAngleMax := 1
    wristAngleMin := 0
    fingerAngleMax := 2
    fingerAngleMin := 0
    wristJoystickVector := 0
    fingerJoystickVector := 0
    commandReapplyRate := 100
    stickCenterTolerance := 1/20
    joystickGripperWristControlTimer := some ⟨false, 0⟩
    joystickGripperFingerControlTimer := some ⟨false, 0⟩
    gripperWristAnglePublisher := ⟨"/" ++ roverName ++ "/wristAngle", true⟩
    gripperFingerAnglePublisher := ⟨"/" ++ roverName ++ "/fingerAngle", true⟩
    roverName := roverName
    publishedMessages := [] }

/-- The default constructor `JoystickGripperInterface()`: it only sets
`ready = false`; every other member is left uninitialized.  The
uninitialized timer pointers are modelled as `none` (no timer object
exists); the remaining indeterminate members are modelled by arbitrary
fixed values, which no operation may rely on while `ready` is false. -/
def defaultConstruct : JoystickGripperInterface :=
  { ready := false
    wristAngle := 0
    fingerAngle := 0
    wristAngleChangeRate := 0
    fingerAngleChangeRate := 0
    wristAngleMax := 0
    wristAngleMin := 0
    fingerAngleMax := 0
    fingerAngleMin := 0
    wristJoystickVector := 0
    fingerJoystickVector := 0
    commandReapplyRate := 0
    stickCenterTolerance := 0
    joystickGripperWristControlTimer := none
    joystickGripperFingerControlTimer := none
    gripperWristAnglePublisher := ⟨"", false⟩
    gripperFingerAnglePublisher := ⟨"", false⟩
    roverName := ""
    publishedMessages := [] }

/-- Method `moveWrist(float vec)`: throws if not ready; stores `-vec` as the
wrist joystick vector; stops the wrist timer when the stored vector is
inside the dead-zone, otherwise starts it at `commandReapplyRate`. -/
def moveWrist (s : JoystickGripperInterface) (vec : ℚ) :
    Option GripperError × JoystickGripperInterface :=
  if s.ready = false then (some .notReady, s)
  else
    let s1 := { s with wristJoystickVector := -vec }
    match s1.joystickGripperWristControlTimer with
    | none => (some .nullTimerDeref, s1)
    | some t =>
      if fabs s1.wristJoystickVector < s1.stickCenterTolerance then
        (none, { s1 with joystickGripperWristControlTimer := some t.stop })
      else
        (none,
         { s1 with joystickGripperWristControlTimer := some (t.start s1.commandReapplyRate) })

/-- Method `moveFingers(float vec)`: throws if not ready; stores `vec` as the
finger joystick vector; stops the finger timer when the stored vector is
inside the dead-zone, otherwise starts it at `commandReapplyRate`. -/
def moveFingers (s : JoystickGripperInterface) (vec : ℚ) :
    Option GripperError × JoystickGripperInterface :=
  if s.ready = false then (some .notReady, s)
  else
    let s1 := { s with fingerJoystickVector := vec }
    match s1.joystickGripperFingerControlTimer with
    | none => (some .nullTimerDeref, s1)
    | some t =>
      if fabs s1.fingerJoystickVector < s1.stickCenterTolerance then
        (none, { s1 with joystickGripperFingerControlTimer := some t.stop })
      else
        (none,
         { s1 with joystickGripperFingerControlTimer := some (t.start s1.commandReapplyRate) })

/-- The wrist angle after the integration and clamping steps of
`joystickGripperWristControlTimerEventHandler` (before the snap-to-zero
step). -/
def wristAngleClamped (s : JoystickGripperInterface) : ℚ :=
  let a := s.wristAngle + s.wristJoystickVector * s.wristAngleChangeRate
  if a > s.wristAngleMax then s.wristAngleMax
  else if a < s.wristAngleMin then s.wristAngleMin
  else a

/-- Method `joystickGripperWristControlTimerEventHandler()`: integrates the
wrist angle, clamps it to `[wristAngleMin, wristAngleMax]`, snaps values
with `|angle| < 0.001` to exactly `0`, and publishes the result on the
wrist publisher. -/
def joystickGripperWristControlTimerEventHandler
    (s : JoystickGripperInterface) : JoystickGripperInterface :=
  let a := wristAngleClamped s
  let a := if fabs a < 1/1000 then 0 else a
  { s with wristAngle := a,
           publishedMessages :=
             s.publishedMessages ++ [(s.gripperWristAnglePublisher.topic, a)] }

/-- The finger angle after the integration and clamping steps of
`joystickGripperFingerControlTimerEventHandler` (before the snap-to-zero
step). -/
def fingerAngleClamped (s : JoystickGripperInterface) : ℚ :=
  let a := s.fingerAngle + s.fingerJoystickVector * s.fingerAngleChangeRate
  if a > s.fingerAngleMax then s.fingerAngleMax
  else if a < s.fingerAngleMin then s.fingerAngleMin
  else a

/-- Method `joystickGripperFingerControlTimerEventHandler()`: integrates the
finger angle, clamps it to `[fingerAngleMin, fingerAngleMax]`, snaps
values with `|angle| < 0.001` to exactly `0`, and publishes the result on
the finger publisher. -/
def joystickGripperFingerControlTimerEventHandler
    (s : JoystickGripperInterface) : JoystickGripperInterface :=
  let a := fingerAngleClamped s
  let a := if fabs a < 1/1000 then 0 else a
  { s with fingerAngle := a,
           publishedMessages :=
             s.publishedMessages ++ [(s.gripperFingerAnglePublisher.topic, a)] }

/-- Method `changeRovers(string roverName)`: sets `ready = false`, stops both
timers (dereferencing both timer pointers), shuts down both publishers,
zeroes the angles and joystick vectors, stores the new rover name,
advertises fresh publishers for the new rover and sets `ready = true`. -/
def changeRovers (s : JoystickGripperInterface) (roverName : String) :
    Option GripperError × JoystickGripperInterface :=
  let s1 := { s with ready := false }
  match s1.joystickGripperWristControlTimer with
  | none => (some .nullTimerDeref, s1)
  | some wt =>
    let s2 := { s1 with joystickGripperWristControlTimer := some wt.stop }
    match s2.joystickGripperFingerControlTimer with
    | none => (some .nullTimerDeref, s2)
    | some ft =>
      (none, { s2 with
        joystickGripperFingerControlTimer := some ft.stop
        fingerAngle := 0
        wristAngle := 0
        fingerJoystickVector := 0
        wristJoystickVector := 0
        roverName := roverName
        gripperWristAnglePublisher := ⟨"/" ++ roverName ++ "/wristAngle", true⟩
        gripperFingerAnglePublisher := ⟨"/" ++ roverName ++ "/fingerAngle", true⟩
        ready := true })

/-- Helper: `changeRovers` applied successively for each name in a list, keeping
the first error if one occurs. -/
def changeRoversSeq (s : JoystickGripperInterface) (names : List String) :
    Option GripperError × JoystickGripperInterface :=
  match names with
  | [] => (none, s)
  | n :: rest =>
    match changeRovers s n with
    | (some e, s') => (some e, s')
    | (none, s') => changeRoversSeq s' rest

/-- The states of a `JoystickGripperInterface` reachable from the
initializing constructor by joystick inputs, timer ticks and rover
changes (each operation contributing the object state it leaves behind,
whether or not it reported an error). -/
inductive Reachable : JoystickGripperInterface → Prop
  | construct (roverName : String) : Reachable (construct roverName)
  | moveWrist (s : JoystickGripperInterface) (vec : ℚ) :
      Reachable s → Reachable (moveWrist s vec).2
  | moveFingers (s : JoystickGripperInterface) (vec : ℚ) :
      Reachable s → Reachable (moveFingers s vec).2
  | wristTick (s : JoystickGripperInterface) :
      Reachable s → Reachable (joystickGripperWristControlTimerEventHandler s)
  | fingerTick (s : JoystickGripperInterface) :
      Reachable s → Reachable (joystickGripperFingerControlTimerEventHandler s)
  | changeRovers (s : JoystickGripperInterface) (roverName : String) :
      Reachable s → Reachable (changeRovers s roverName).2

/-- The configuration established by the initializing constructor and
never modified afterwards: limits, change rates, reapply period,
dead-zone, and allocated timers. -/
def ConfigOK (s : JoystickGripperInterface) : Prop :=
  s.wristAngleMin = 0 ∧ s.wristAngleMax = 1 ∧
  s.fingerAngleMin = 0 ∧ s.fingerAngleMax = 2 ∧
  s.wristAngleChangeRate = 1/10 ∧ s.fingerAngleChangeRate = 1/10 ∧
  s.commandReapplyRate = 100 ∧ s.stickCenterTolerance = 1/20 ∧
  s.joystickGripperWristControlTimer.isSome = true ∧
  s.joystickGripperFingerControlTimer.isSome = true

/-- Equality of the finger-joint state of two object states: the finger
angle, finger joystick vector, finger timer and finger publisher. -/
def FingerStateEq (a b : JoystickGripperInterface) : Prop :=
  a.fingerAngle = b.fingerAngle ∧
  a.fingerJoystickVector = b.fingerJoystickVector ∧
  a.joystickGripperFingerControlTimer = b.joystickGripperFingerControlTimer ∧
  a.gripperFingerAnglePublisher = b.gripperFingerAnglePublisher

/-- Equality of the wrist-joint state of two object states: the wrist
angle, wrist joystick vector, wrist timer and wrist publisher. -/
def WristStateEq (a b : JoystickGripperInterface) : Prop :=
  a.wristAngle = b.wristAngle ∧
  a.wristJoystickVector = b.wristJoystickVector ∧
  a.joystickGripperWristControlTimer = b.joystickGripperWristControlTimer ∧
  a.gripperWristAnglePublisher = b.gripperWristAnglePublisher

/-- Equality of the shared configuration of two object states: angle
limits, change rates, dead-zone, reapply period and the ready flag. -/
def SharedConfigEq (a b : JoystickGripperInterface) : Prop :=
  a.wristAngleMin = b.wristAngleMin ∧
  a.wristAngleMax = b.wristAngleMax ∧
  a.fingerAngleMin = b.fingerAngleMin ∧
  a.fingerAngleMax = b.fingerAngleMax ∧
  a.wristAngleChangeRate = b.wristAngleChangeRate ∧
  a.fingerAngleChangeRate = b.fingerAngleChangeRate ∧
  a.stickCenterTolerance = b.stickCenterTolerance ∧
  a.commandReapplyRate = b.commandReapplyRate ∧
  a.ready = b.ready

/-! ### Frame lemmas: fields each operation leaves untouched -/

/-- Frame: `moveWrist` leaves every member other than `wristJoystickVector` and
the wrist timer unchanged, and preserves allocation of the wrist timer. -/
theorem moveWrist_frame (s : JoystickGripperInterface) (vec : ℚ) :
    (moveWrist s vec).2.ready = s.ready ∧
    (moveWrist s vec).2.wristAngle = s.wristAngle ∧
    (moveWrist s vec).2.fingerAngle = s.fingerAngle ∧
    (moveWrist s vec).2.wristAngleChangeRate = s.wristAngleChangeRate ∧
    (moveWrist s vec).2.fingerAngleChangeRate = s.fingerAngleChangeRate ∧
    (moveWrist s vec).2.wristAngleMax = s.wristAngleMax ∧
    (moveWrist s vec).2.wristAngleMin = s.wristAngleMin ∧
    (moveWrist s vec).2.fingerAngleMax = s.fingerAngleMax ∧
    (moveWrist s vec).2.fingerAngleMin = s.fingerAngleMin ∧
    (moveWrist s vec).2.fingerJoystickVector = s.fingerJoystickVector ∧
    (moveWrist s vec).2.commandReapplyRate = s.commandReapplyRate ∧
    (moveWrist s vec).2.stickCenterTolerance = s.stickCenterTolerance ∧
    (moveWrist s vec).2.joystickGripperFingerControlTimer
      = s.joystickGripperFingerControlTimer ∧
    (moveWrist s vec).2.gripperWristAnglePublisher = s.gripperWristAnglePublisher ∧
    (moveWrist s vec).2.gripperFingerAnglePublisher = s.gripperFingerAnglePublisher ∧
    (moveWrist s vec).2.roverName = s.roverName ∧
    (moveWrist s vec).2.publishedMessages = s.publishedMessages ∧
    (moveWrist s vec).2.joystickGripperWristControlTimer.isSome
      = s.joystickGripperWristControlTimer.isSome := by
  cases hr : s.ready <;>
    cases ht : s.joystickGripperWristControlTimer <;>
      simp [moveWrist, hr, ht] <;> split_ifs <;> simp

/-- Frame: `moveFingers` leaves every member other than `fingerJoystickVector`
and the finger timer unchanged, and preserves allocation of the finger
timer. -/
theorem moveFingers_frame (s : JoystickGripperInterface) (vec : ℚ) :
    (moveFingers s vec).2.ready = s.ready ∧
    (moveFingers s vec).2.wristAngle = s.wristAngle ∧
    (moveFingers s vec).2.fingerAngle = s.fingerAngle ∧
    (moveFingers s vec).2.wristAngleChangeRate = s.wristAngleChangeRate ∧
    (moveFingers s vec).2.fingerAngleChangeRate = s.fingerAngleChangeRate ∧
    (moveFingers s vec).2.wristAngleMax = s.wristAngleMax ∧
    (moveFingers s vec).2.wristAngleMin = s.wristAngleMin ∧
    (moveFingers s vec).2.fingerAngleMax = s.fingerAngleMax ∧
    (moveFingers s vec).2.fingerAngleMin = s.fingerAngleMin ∧
    (moveFingers s vec).2.wristJoystickVector = s.wristJoystickVector ∧
    (moveFingers s vec).2.commandReapplyRate = s.commandReapplyRate ∧
    (moveFingers s vec).2.stickCenterTolerance = s.stickCenterTolerance ∧
    (moveFingers s vec).2.joystickGripperWristControlTimer
      = s.joystickGripperWristControlTimer ∧
    (moveFingers s vec).2.gripperWristAnglePublisher = s.gripperWristAnglePublisher ∧
    (moveFingers s vec).2.gripperFingerAnglePublisher = s.gripperFingerAnglePublisher ∧
    (moveFingers s vec).2.roverName = s.roverName ∧
    (moveFingers s vec).2.publishedMessages = s.publishedMessages ∧
    (moveFingers s vec).2.joystickGripperFingerControlTimer.isSome
      = s.joystickGripperFingerControlTimer.isSome := by
  cases hr : s.ready <;>
    cases ht : s.joystickGripperFingerControlTimer <;>
      simp [moveFingers, hr, ht] <;> split_ifs <;> simp

/-- The wrist tick handler changes only `wristAngle` and the published
message log. -/
theorem wristTick_frame (s : JoystickGripperInterface) :
    (joystickGripperWristControlTimerEventHandler s).ready = s.ready ∧
    (joystickGripperWristControlTimerEventHandler s).fingerAngle = s.fingerAngle ∧
    (joystickGripperWristControlTimerEventHandler s).wristAngleChangeRate
      = s.wristAngleChangeRate ∧
    (joystickGripperWristControlTimerEventHandler s).fingerAngleChangeRate
      = s.fingerAngleChangeRate ∧
    (joystickGripperWristControlTimerEventHandler s).wristAngleMax = s.wristAngleMax ∧
    (joystickGripperWristControlTimerEventHandler s).wristAngleMin = s.wristAngleMin ∧
    (joystickGripperWristControlTimerEventHandler s).fingerAngleMax = s.fingerAngleMax ∧
    (joystickGripperWristControlTimerEventHandler s).fingerAngleMin = s.fingerAngleMin ∧
    (joystickGripperWristControlTimerEventHandler s).wristJoystickVector
      = s.wristJoystickVector ∧
    (joystickGripperWristControlTimerEventHandler s).fingerJoystickVector
      = s.fingerJoystickVector ∧
    (joystickGripperWristControlTimerEventHandler s).commandReapplyRate
      = s.commandReapplyRate ∧
    (joystickGripperWristControlTimerEventHandler s).stickCenterTolerance
      = s.stickCenterTolerance ∧
    (joystickGripperWristControlTimerEventHandler s).joystickGripperWristControlTimer
      = s.joystickGripperWristControlTimer ∧
    (joystickGripperWristControlTimerEventHandler s).joystickGripperFingerControlTimer
      = s.joystickGripperFingerControlTimer ∧
    (joystickGripperWristControlTimerEventHandler s).gripperWristAnglePublisher
      = s.gripperWristAnglePublisher ∧
    (joystickGripperWristControlTimerEventHandler s).gripperFingerAnglePublisher
      = s.gripperFingerAnglePublisher ∧
    (joystickGripperWristControlTimerEventHandler s).roverName = s.roverName := by
  simp [joystickGripperWristControlTimerEventHandler]

/-- The finger tick handler changes only `fingerAngle` and the published
message log. -/
theorem fingerTick_frame (s : JoystickGripperInterface) :
    (joystickGripperFingerControlTimerEventHandler s).ready = s.ready ∧
    (joystickGripperFingerControlTimerEventHandler s).wristAngle = s.wristAngle ∧
    (joystickGripperFingerControlTimerEventHandler s).wristAngleChangeRate
      = s.wristAngleChangeRate ∧
    (joystickGripperFingerControlTimerEventHandler s).fingerAngleChangeRate
      = s.fingerAngleChangeRate ∧
    (joystickGripperFingerControlTimerEventHandler s).wristAngleMax = s.wristAngleMax ∧
    (joystickGripperFingerControlTimerEventHandler s).wristAngleMin = s.wristAngleMin ∧
    (joystickGripperFingerControlTimerEventHandler s).fingerAngleMax = s.fingerAngleMax ∧
    (joystickGripperFingerControlTimerEventHandler s).fingerAngleMin = s.fingerAngleMin ∧
    (joystickGripperFingerControlTimerEventHandler s).wristJoystickVector
      = s.wristJoystickVector ∧
    (joystickGripperFingerControlTimerEventHandler s).fingerJoystickVector
      = s.fingerJoystickVector ∧
    (joystickGripperFingerControlTimerEventHandler s).commandReapplyRate
      = s.commandReapplyRate ∧
    (joystickGripperFingerControlTimerEventHandler s).stickCenterTolerance
      = s.stickCenterTolerance ∧
    (joystickGripperFingerControlTimerEventHandler s).joystickGripperWristControlTimer
      = s.joystickGripperWristControlTimer ∧
    (joystickGripperFingerControlTimerEventHandler s).joystickGripperFingerControlTimer
      = s.joystickGripperFingerControlTimer ∧
    (joystickGripperFingerControlTimerEventHandler s).gripperWristAnglePublisher
      = s.gripperWristAnglePublisher ∧
    (joystickGripperFingerControlTimerEventHandler s).gripperFingerAnglePublisher
      = s.gripperFingerAnglePublisher ∧
    (joystickGripperFingerControlTimerEventHandler s).roverName = s.roverName := by
  simp [joystickGripperFingerControlTimerEventHandler]

/-- Unfolding `changeRovers` on a state with both timers allocated: the exact
result state. -/
theorem changeRovers_eq (s : JoystickGripperInterface) (name : String)
    (wt ft : QTimer) (hwt : s.joystickGripperWristControlTimer = some wt)
    (hft : s.joystickGripperFingerControlTimer = some ft) :
    changeRovers s name =
      (none,
       { s with
          joystickGripperWristControlTimer := some wt.stop
          joystickGripperFingerControlTimer := some ft.stop
          fingerAngle := 0
          wristAngle := 0
          fingerJoystickVector := 0
          wristJoystickVector := 0
          roverName := name
          gripperWristAnglePublisher := ⟨"/" ++ name ++ "/wristAngle", true⟩
          gripperFingerAnglePublisher := ⟨"/" ++ name ++ "/fingerAngle", true⟩
          ready := true }) := by
  simp [changeRovers, hwt, hft]

/-! ### The constructor configuration is an invariant of all operations -/

/-- The initializing constructor establishes the configuration. -/
theorem configOK_construct (roverName : String) : ConfigOK (construct roverName) := by
  simp [ConfigOK, construct]

/-- Operation `moveWrist` preserves the configuration. -/
theorem configOK_moveWrist (s : JoystickGripperInterface) (vec : ℚ)
    (h : ConfigOK s) : ConfigOK (moveWrist s vec).2 := by
  obtain ⟨f1, f2, f3, f4, f5, f6, f7, f8, f9, f10, f11, f12, f13, f14, f15, f16, f17, f18⟩ :=
    moveWrist_frame s vec
  unfold ConfigOK at h ⊢
  rw [f4, f5, f6, f7, f8, f9, f11, f12, f13, f18]
  tauto

/-- Operation `moveFingers` preserves the configuration. -/
theorem configOK_moveFingers (s : JoystickGripperInterface) (vec : ℚ)
    (h : ConfigOK s) : ConfigOK (moveFingers s vec).2 := by
  obtain ⟨f1, f2, f3, f4, f5, f6, f7, f8, f9, f10, f11, f12, f13, f14, f15, f16, f17, f18⟩ :=
    moveFingers_frame s vec
  unfold ConfigOK at h ⊢
  rw [f4, f5, f6, f7, f8, f9, f11, f12, f13, f18]
  tauto

/-- The wrist tick handler preserves the configuration. -/
theorem configOK_wristTick (s : JoystickGripperInterface)
    (h : ConfigOK s) : ConfigOK (joystickGripperWristControlTimerEventHandler s) := by
  unfold ConfigOK at h ⊢
  simpa [joystickGripperWristControlTimerEventHandler] using h

/-- The finger tick handler preserves the configuration. -/
theorem configOK_fingerTick (s : JoystickGripperInterface)
    (h : ConfigOK s) : ConfigOK (joystickGripperFingerControlTimerEventHandler s) := by
  unfold ConfigOK at h ⊢
  simpa [joystickGripperFingerControlTimerEventHandler] using h

/-- Operation `changeRovers` preserves the configuration. -/
theorem configOK_changeRovers (s : JoystickGripperInterface) (name : String)
    (h : ConfigOK s) : ConfigOK (changeRovers s name).2 := by
  obtain ⟨c1, c2, c3, c4, c5, c6, c7, c8, c9, c10⟩ := h
  obtain ⟨wt, hwt⟩ := Option.isSome_iff_exists.mp c9
  obtain ⟨ft, hft⟩ := Option.isSome_iff_exists.mp c10
  rw [changeRovers_eq s name wt ft hwt hft]
  simp [ConfigOK, c1, c2, c3, c4, c5, c6, c7, c8]

/-- Every reachable state carries the constructor configuration. -/
theorem reachable_configOK {s : JoystickGripperInterface}
    (h : Reachable s) : ConfigOK s := by
  induction h with
  | construct roverName => exact configOK_construct roverName
  | moveWrist s vec _ ih => exact configOK_moveWrist s vec ih
  | moveFingers s vec _ ih => exact configOK_moveFingers s vec ih
  | wristTick s _ ih => exact configOK_wristTick s ih
  | fingerTick s _ ih => exact configOK_fingerTick s ih
  | changeRovers s name _ ih => exact configOK_changeRovers s name ih

/-! ### Claims -/

/-- C1: For every sequence of `setVelocity` calls made while ready (i.e.
in every reachable state of the controller), after any tick of either
timer handler the corresponding angle satisfies its configured bounds:
`0 ≤ wristAngle ≤ 1` and `0 ≤ fingerAngle ≤ 2`. -/
theorem angle_bounds_after_any_tick (s : JoystickGripperInterface)
    (h : Reachable s) :
    (0 ≤ (joystickGripperWristControlTimerEventHandler s).wristAngle ∧
      (joystickGripperWristControlTimerEventHandler s).wristAngle ≤ 1) ∧
    (0 ≤ (joystickGripperFingerControlTimerEventHandler s).fingerAngle ∧
      (joystickGripperFingerControlTimerEventHandler s).fingerAngle ≤ 2) := by
  obtain ⟨hwmin, hwmax, hfmin, hfmax, -, -, -, -, -, -⟩ := reachable_configOK h
  constructor
  · simp only [joystickGripperWristControlTimerEventHandler, wristAngleClamped,
      hwmin, hwmax]
    split_ifs <;> constructor <;> linarith
  · simp only [joystickGripperFingerControlTimerEventHandler, fingerAngleClamped,
      hfmin, hfmax]
    split_ifs <;> constructor <;> linarith

/-- Witness for C1: the bounds hold after a tick on the freshly
constructed controller. -/
theorem angle_bounds_after_any_tick_witness :
    (0 ≤ (joystickGripperWristControlTimerEventHandler (construct "achilles")).wristAngle ∧
      (joystickGripperWristControlTimerEventHandler (construct "achilles")).wristAngle ≤ 1) ∧
    (0 ≤ (joystickGripperFingerControlTimerEventHandler (construct "achilles")).fingerAngle ∧
      (joystickGripperFingerControlTimerEventHandler (construct "achilles")).fingerAngle ≤ 2) :=
  angle_bounds_after_any_tick (construct "achilles") (Reachable.construct "achilles")

/-- C2: while not ready, `moveWrist` and `moveFingers` throw the
not-ready exception and leave the object state unchanged; while ready,
the not-ready exception is never thrown. -/
theorem setVelocity_not_ready_behaviour (s : JoystickGripperInterface) (vec : ℚ) :
    (s.ready = false →
      moveWrist s vec = (some GripperError.notReady, s) ∧
      moveFingers s vec = (some GripperError.notReady, s)) ∧
    (s.ready = true →
      (moveWrist s vec).1 ≠ some GripperError.notReady ∧
      (moveFingers s vec).1 ≠ some GripperError.notReady) := by
  constructor
  · intro hr
    simp [moveWrist, moveFingers, hr]
  · intro hr
    constructor
    · cases ht : s.joystickGripperWristControlTimer <;>
        simp [moveWrist, hr, ht] <;> split_ifs <;> simp
    · cases ht : s.joystickGripperFingerControlTimer <;>
        simp [moveFingers, hr, ht] <;> split_ifs <;> simp

/-- Witness for C2: the not-ready branch on a default-constructed
object, the ready branch on a fully constructed one. -/
theorem setVelocity_not_ready_behaviour_witness :
    (moveWrist defaultConstruct 1 = (some GripperError.notReady, defaultConstruct) ∧
      moveFingers defaultConstruct 1 = (some GripperError.notReady, defaultConstruct)) ∧
    ((moveWrist (construct "achilles") 1).1 ≠ some GripperError.notReady ∧
      (moveFingers (construct "achilles") 1).1 ≠ some GripperError.notReady) :=
  ⟨(setVelocity_not_ready_behaviour defaultConstruct 1).1 rfl,
   (setVelocity_not_ready_behaviour (construct "achilles") 1).2 rfl⟩

/-- C3: when ready, `setVelocity` stops the joint timer exactly when
the stored `|velocityVector|` is below the dead-zone `0.05`, and
otherwise (re)starts it at the `100` ms reapply period, regardless of
its previous run state. -/
theorem setVelocity_timer_deadzone (s : JoystickGripperInterface) (vec : ℚ)
    (hr : Reachable s) (h : s.ready = true) :
    ((fabs (moveWrist s vec).2.wristJoystickVector < 1/20 →
       ∃ t : QTimer, (moveWrist s vec).2.joystickGripperWristControlTimer = some t ∧
         t.active = false) ∧
     (¬ fabs (moveWrist s vec).2.wristJoystickVector < 1/20 →
       (moveWrist s vec).2.joystickGripperWristControlTimer = some ⟨true, 100⟩)) ∧
    ((fabs (moveFingers s vec).2.fingerJoystickVector < 1/20 →
       ∃ t : QTimer, (moveFingers s vec).2.joystickGripperFingerControlTimer = some t ∧
         t.active = false) ∧
     (¬ fabs (moveFingers s vec).2.fingerJoystickVector < 1/20 →
       (moveFingers s vec).2.joystickGripperFingerControlTimer = some ⟨true, 100⟩)) := by
  obtain ⟨-, -, -, -, -, -, hreap, htol, hw, hf⟩ := reachable_configOK hr
  obtain ⟨wt, hwt⟩ := Option.isSome_iff_exists.mp hw
  obtain ⟨ft, hft⟩ := Option.isSome_iff_exists.mp hf
  constructor
  · simp only [moveWrist, h, hwt, htol, hreap]
    split_ifs with hc <;> simp_all [QTimer.stop, QTimer.start]
  · simp only [moveFingers, h, hft, htol, hreap]
    split_ifs with hc <;> simp_all [QTimer.stop, QTimer.start]

/-- Witness for C3 on a freshly constructed controller. -/
theorem setVelocity_timer_deadzone_witness :
    ((fabs (moveWrist (construct "achilles") 1).2.wristJoystickVector < 1/20 →
       ∃ t : QTimer,
         (moveWrist (construct "achilles") 1).2.joystickGripperWristControlTimer = some t ∧
           t.active = false) ∧
     (¬ fabs (moveWrist (construct "achilles") 1).2.wristJoystickVector < 1/20 →
       (moveWrist (construct "achilles") 1).2.joystickGripperWristControlTimer =
         some ⟨true, 100⟩)) ∧
    ((fabs (moveFingers (construct "achilles") 1).2.fingerJoystickVector < 1/20 →
       ∃ t : QTimer,
         (moveFingers (construct "achilles") 1).2.joystickGripperFingerControlTimer = some t ∧
           t.active = false) ∧
     (¬ fabs (moveFingers (construct "achilles") 1).2.fingerJoystickVector < 1/20 →
       (moveFingers (construct "achilles") 1).2.joystickGripperFingerControlTimer =
         some ⟨true, 100⟩)) :=
  setVelocity_timer_deadzone (construct "achilles") 1 (Reachable.construct "achilles") rfl

/-- C4: when ready, `moveWrist` stores the negated input as the wrist
joystick vector, while `moveFingers` stores its input unchanged. -/
theorem setVelocity_sign_convention (s : JoystickGripperInterface) (vec : ℚ)
    (h : s.ready = true) :
    (moveWrist s vec).2.wristJoystickVector = -vec ∧
    (moveFingers s vec).2.fingerJoystickVector = vec := by
  constructor
  · cases ht : s.joystickGripperWristControlTimer <;>
      simp [moveWrist, h, ht] <;> split_ifs <;> simp
  · cases ht : s.joystickGripperFingerControlTimer <;>
      simp [moveFingers, h, ht] <;> split_ifs <;> simp

/-- Witness for C4 at input `2`. -/
theorem setVelocity_sign_convention_witness :
    (moveWrist (construct "achilles") 2).2.wristJoystickVector = -2 ∧
    (moveFingers (construct "achilles") 2).2.fingerJoystickVector = 2 :=
  setVelocity_sign_convention (construct "achilles") 2 rfl

/-- C5: on any tick, if the angle computed by the integration and
clamping steps has absolute value below `0.001`, the stored angle is set
to exactly `0` and exactly `0` is published on the joint channel. -/
theorem snap_to_zero (s : JoystickGripperInterface) :
    (fabs (wristAngleClamped s) < 1/1000 →
      (joystickGripperWristControlTimerEventHandler s).wristAngle = 0 ∧
      (joystickGripperWristControlTimerEventHandler s).publishedMessages =
        s.publishedMessages ++ [(s.gripperWristAnglePublisher.topic, 0)]) ∧
    (fabs (fingerAngleClamped s) < 1/1000 →
      (joystickGripperFingerControlTimerEventHandler s).fingerAngle = 0 ∧
      (joystickGripperFingerControlTimerEventHandler s).publishedMessages =
        s.publishedMessages ++ [(s.gripperFingerAnglePublisher.topic, 0)]) := by
  constructor
  · intro hlt
    simp [joystickGripperWristControlTimerEventHandler]
    intro h2
    linarith
  · intro hlt
    simp [joystickGripperFingerControlTimerEventHandler]
    intro h2
    linarith

/-- Witness for C5: a tick on the freshly constructed controller
computes angle `0`, which is snapped to and published as exactly `0`. -/
theorem snap_to_zero_witness :
    ((joystickGripperWristControlTimerEventHandler (construct "achilles")).wristAngle = 0 ∧
      (joystickGripperWristControlTimerEventHandler (construct "achilles")).publishedMessages =
        (construct "achilles").publishedMessages ++
          [((construct "achilles").gripperWristAnglePublisher.topic, 0)]) ∧
    ((joystickGripperFingerControlTimerEventHandler (construct "achilles")).fingerAngle = 0 ∧
      (joystickGripperFingerControlTimerEventHandler (construct "achilles")).publishedMessages =
        (construct "achilles").publishedMessages ++
          [((construct "achilles").gripperFingerAnglePublisher.topic, 0)]) :=
  ⟨(snap_to_zero (construct "achilles")).1
      (by norm_num [wristAngleClamped, construct, fabs]),
   (snap_to_zero (construct "achilles")).2
      (by norm_num [fingerAngleClamped, construct, fabs])⟩

/-- One successful `changeRovers` step unfolds a `changeRoversSeq`
call. -/
theorem changeRoversSeq_cons_ok (s s' : JoystickGripperInterface) (n : String)
    (rest : List String) (h : changeRovers s n = (none, s')) :
    changeRoversSeq s (n :: rest) = changeRoversSeq s' rest := by
  simp [changeRoversSeq, h]

/-- C6: any nonempty sequence of consecutive `changeRovers` calls, from
any state whose timer objects were allocated, reports no error and
leaves both angles and both joystick vectors at zero, `ready = true`,
both timers stopped, and the publishers bound to the topics of the
latest rover name. -/
theorem changeRovers_idempotent (s : JoystickGripperInterface)
    (names : List String) (last : String)
    (hw : s.joystickGripperWristControlTimer.isSome = true)
    (hf : s.joystickGripperFingerControlTimer.isSome = true)
    (hlast : names.getLast? = some last) :
    (changeRoversSeq s names).1 = none ∧
    (changeRoversSeq s names).2.wristAngle = 0 ∧
    (changeRoversSeq s names).2.fingerAngle = 0 ∧
    (changeRoversSeq s names).2.wristJoystickVector = 0 ∧
    (changeRoversSeq s names).2.fingerJoystickVector = 0 ∧
    (changeRoversSeq s names).2.ready = true ∧
    (∃ t : QTimer, (changeRoversSeq s names).2.joystickGripperWristControlTimer = some t ∧
      t.active = false) ∧
    (∃ t : QTimer, (changeRoversSeq s names).2.joystickGripperFingerControlTimer = some t ∧
      t.active = false) ∧
    (changeRoversSeq s names).2.gripperWristAnglePublisher =
      ⟨"/" ++ last ++ "/wristAngle", true⟩ ∧
    (changeRoversSeq s names).2.gripperFingerAnglePublisher =
      ⟨"/" ++ last ++ "/fingerAngle", true⟩ := by
  revert hw hf hlast
  induction names generalizing s last with
  | nil =>
    intro hw hf hlast
    simp at hlast
  | cons n rest ih =>
    intro hw hf hlast
    obtain ⟨wt, hwt⟩ := Option.isSome_iff_exists.mp hw
    obtain ⟨ft, hft⟩ := Option.isSome_iff_exists.mp hf
    rw [changeRoversSeq_cons_ok s _ n rest (changeRovers_eq s n wt ft hwt hft)]
    cases rest with
    | nil =>
      obtain rfl : n = last := by simpa using hlast
      simp [changeRoversSeq, QTimer.stop]
    | cons m rest2 =>
      have hlast2 : (m :: rest2).getLast? = some last := by
        simpa [List.getLast?_cons_cons] using hlast
      exact ih _ last (by simp) (by simp) hlast2

/-- Witness for C6: two consecutive rover changes from the freshly
constructed controller. -/
theorem changeRovers_idempotent_witness :
    (changeRoversSeq (construct "achilles") ["ajax", "hector"]).1 = none ∧
    (changeRoversSeq (construct "achilles") ["ajax", "hector"]).2.wristAngle = 0 ∧
    (changeRoversSeq (construct "achilles") ["ajax", "hector"]).2.fingerAngle = 0 ∧
    (changeRoversSeq (construct "achilles") ["ajax", "hector"]).2.wristJoystickVector = 0 ∧
    (changeRoversSeq (construct "achilles") ["ajax", "hector"]).2.fingerJoystickVector = 0 ∧
    (changeRoversSeq (construct "achilles") ["ajax", "hector"]).2.ready = true ∧
    (∃ t : QTimer,
      (changeRoversSeq (construct "achilles")
          ["ajax", "hector"]).2.joystickGripperWristControlTimer = some t ∧
        t.active = false) ∧
    (∃ t : QTimer,
      (changeRoversSeq (construct "achilles")
          ["ajax", "hector"]).2.joystickGripperFingerControlTimer = some t ∧
        t.active = false) ∧
    (changeRoversSeq (construct "achilles") ["ajax", "hector"]).2.gripperWristAnglePublisher =
      ⟨"/" ++ "hector" ++ "/wristAngle", true⟩ ∧
    (changeRoversSeq (construct "achilles") ["ajax", "hector"]).2.gripperFingerAnglePublisher =
      ⟨"/" ++ "hector" ++ "/fingerAngle", true⟩ :=
  changeRovers_idempotent (construct "achilles") ["ajax", "hector"] "hector"
    (by rfl) (by rfl) (by rfl)

/-- C6 counterexample: a `changeRovers` call whose prior state is the
default-constructed instance dereferences an unallocated timer and
leaves the controller not ready, so the claimed postcondition fails for
that prior state. -/
theorem retargetSeq_default_constructed_fails :
    (changeRoversSeq defaultConstruct ["rover1"]).1 = some GripperError.nullTimerDeref ∧
    (changeRoversSeq defaultConstruct ["rover1"]).2.ready = false := by
  simp [changeRoversSeq, changeRovers, defaultConstruct]

/-- C7 counterexample: on a default-constructed instance the timer
members were never initialized, so `changeRovers` dereferences an
invalid timer pointer instead of executing successfully, and readiness
is not established. -/
theorem retarget_default_constructed_fails :
    (changeRovers defaultConstruct "rover1").1 = some GripperError.nullTimerDeref ∧
    (changeRovers defaultConstruct "rover1").2.ready = false := by
  simp [changeRovers, defaultConstruct]

/-- C7 (amended): `changeRovers` has no readiness precondition: from
every state whose timer objects were allocated (in particular states
with `ready = false`), it executes successfully and establishes
`ready = true`. -/
theorem retarget_no_ready_precondition (s : JoystickGripperInterface)
    (name : String)
    (hw : s.joystickGripperWristControlTimer.isSome = true)
    (hf : s.joystickGripperFingerControlTimer.isSome = true) :
    (changeRovers s name).1 = none ∧ (changeRovers s name).2.ready = true := by
  obtain ⟨wt, hwt⟩ := Option.isSome_iff_exists.mp hw
  obtain ⟨ft, hft⟩ := Option.isSome_iff_exists.mp hf
  rw [changeRovers_eq s name wt ft hwt hft]
  simp

/-- Witness for C7 (amended): a rover change succeeds from a
constructed state whose ready flag is false. -/
theorem retarget_no_ready_precondition_witness :
    (changeRovers { construct "achilles" with ready := false } "hector").1 = none ∧
    (changeRovers { construct "achilles" with ready := false } "hector").2.ready = true :=
  retarget_no_ready_precondition { construct "achilles" with ready := false } "hector"
    (by rfl) (by rfl)

/-- C8: scenario — on the freshly constructed controller (wrist angle
`0`, change rate `0.1`, bounds `[0, 1]`), `moveWrist (-1.0)` succeeds,
stores velocity vector `1.0`, starts the wrist timer at `100` ms, and
the next five ticks produce the wrist angles
`0.1, 0.2, 0.3, 0.4, 0.5` exactly. -/
theorem wrist_five_tick_scenario :
    (moveWrist (construct "rover") (-1)).1 = none ∧
    (moveWrist (construct "rover") (-1)).2.wristJoystickVector = 1 ∧
    (moveWrist (construct "rover") (-1)).2.joystickGripperWristControlTimer =
      some ⟨true, 100⟩ ∧
    (joystickGripperWristControlTimerEventHandler
      ((moveWrist (construct "rover") (-1)).2)).wristAngle = 1/10 ∧
    (joystickGripperWristControlTimerEventHandler
      (joystickGripperWristControlTimerEventHandler
        ((moveWrist (construct "rover") (-1)).2))).wristAngle = 2/10 ∧
    (joystickGripperWristControlTimerEventHandler
      (joystickGripperWristControlTimerEventHandler
        (joystickGripperWristControlTimerEventHandler
          ((moveWrist (construct "rover") (-1)).2)))).wristAngle = 3/10 ∧
    (joystickGripperWristControlTimerEventHandler
      (joystickGripperWristControlTimerEventHandler
        (joystickGripperWristControlTimerEventHandler
          (joystickGripperWristControlTimerEventHandler
            ((moveWrist (construct "rover") (-1)).2))))).wristAngle = 4/10 ∧
    (joystickGripperWristControlTimerEventHandler
      (joystickGripperWristControlTimerEventHandler
        (joystickGripperWristControlTimerEventHandler
          (joystickGripperWristControlTimerEventHandler
            (joystickGripperWristControlTimerEventHandler
              ((moveWrist (construct "rover") (-1)).2)))))).wristAngle = 5/10 := by
  norm_num [moveWrist, construct, joystickGripperWristControlTimerEventHandler,
    wristAngleClamped, fabs, QTimer.start]

/-- C9: when ready, `setVelocity` has no immediate publish and does not
modify either stored angle (its only effects are the stored joystick
vector and the timer run state). -/
theorem setVelocity_no_publish_no_angle_change (s : JoystickGripperInterface)
    (vec : ℚ) (h : s.ready = true) :
    ((moveWrist s vec).2.wristAngle = s.wristAngle ∧
     (moveWrist s vec).2.fingerAngle = s.fingerAngle ∧
     (moveWrist s vec).2.publishedMessages = s.publishedMessages) ∧
    ((moveFingers s vec).2.wristAngle = s.wristAngle ∧
     (moveFingers s vec).2.fingerAngle = s.fingerAngle ∧
     (moveFingers s vec).2.publishedMessages = s.publishedMessages) := by
  obtain ⟨-, w2, w3, -, -, -, -, -, -, -, -, -, -, -, -, -, w17, -⟩ := moveWrist_frame s vec
  obtain ⟨-, g2, g3, -, -, -, -, -, -, -, -, -, -, -, -, -, g17, -⟩ := moveFingers_frame s vec
  exact ⟨⟨w2, w3, w17⟩, ⟨g2, g3, g17⟩⟩

/-- Witness for C9 on the freshly constructed controller. -/
theorem setVelocity_no_publish_no_angle_change_witness :
    ((moveWrist (construct "achilles") 1).2.wristAngle =
        (construct "achilles").wristAngle ∧
     (moveWrist (construct "achilles") 1).2.fingerAngle =
        (construct "achilles").fingerAngle ∧
     (moveWrist (construct "achilles") 1).2.publishedMessages =
        (construct "achilles").publishedMessages) ∧
    ((moveFingers (construct "achilles") 1).2.wristAngle =
        (construct "achilles").wristAngle ∧
     (moveFingers (construct "achilles") 1).2.fingerAngle =
        (construct "achilles").fingerAngle ∧
     (moveFingers (construct "achilles") 1).2.publishedMessages =
        (construct "achilles").publishedMessages) :=
  setVelocity_no_publish_no_angle_change (construct "achilles") 1 rfl

/-- C10: the joints are independent: `moveWrist` and the wrist tick
handler leave the finger state unchanged, `moveFingers` and the finger
tick handler leave the wrist state unchanged, and none of the four
operations modifies the shared configuration (limits, change rates,
dead-zone, reapply period, ready flag). -/
theorem joint_independence (s : JoystickGripperInterface) (vec : ℚ) :
    (FingerStateEq (moveWrist s vec).2 s ∧ SharedConfigEq (moveWrist s vec).2 s) ∧
    (FingerStateEq (joystickGripperWristControlTimerEventHandler s) s ∧
      SharedConfigEq (joystickGripperWristControlTimerEventHandler s) s) ∧
    (WristStateEq (moveFingers s vec).2 s ∧ SharedConfigEq (moveFingers s vec).2 s) ∧
    (WristStateEq (joystickGripperFingerControlTimerEventHandler s) s ∧
      SharedConfigEq (joystickGripperFingerControlTimerEventHandler s) s) := by
  obtain ⟨w1, w2, w3, w4, w5, w6, w7, w8, w9, w10, w11, w12, w13, w14, w15, w16, w17, w18⟩ :=
    moveWrist_frame s vec
  obtain ⟨g1, g2, g3, g4, g5, g6, g7, g8, g9, g10, g11, g12, g13, g14, g15, g16, g17, g18⟩ :=
    moveFingers_frame s vec
  obtain ⟨t1, t2, t3, t4, t5, t6, t7, t8, t9, t10, t11, t12, t13, t14, t15, t16, t17⟩ :=
    wristTick_frame s
  obtain ⟨u1, u2, u3, u4, u5, u6, u7, u8, u9, u10, u11, u12, u13, u14, u15, u16, u17⟩ :=
    fingerTick_frame s
  unfold FingerStateEq WristStateEq SharedConfigEq
  exact ⟨⟨⟨w3, w10, w13, w15⟩, ⟨w7, w6, w9, w8, w4, w5, w12, w11, w1⟩⟩,
         ⟨⟨t2, t10, t14, t16⟩, ⟨t6, t5, t8, t7, t3, t4, t12, t11, t1⟩⟩,
         ⟨⟨g2, g10, g13, g14⟩, ⟨g7, g6, g9, g8, g4, g5, g12, g11, g1⟩⟩,
         ⟨⟨u2, u9, u13, u15⟩, ⟨u6, u5, u8, u7, u3, u4, u12, u11, u1⟩⟩⟩

end JoystickGripperInterface
